import Mathlib

/-!
Verification development for the `coquitts` GStreamer element
(`src/filter/imp.rs`): a text-to-speech transform that lazily initialises
a Coqui TTS backend, negotiates caps, and converts queued text buffers
into little-endian `f32` audio buffers.

Modelling choices, all taken from the source:
  * Audio samples are 32-bit IEEE-754 values; the element never performs
    float arithmetic on them (it only reinterprets the sample vector as
    bytes), so a sample is modelled by its 32-bit pattern (a `Nat < 2^32`).
  * Python-side failures and Rust `panic!` are modelled by an explicit
    `Panic` result; a Rust `Mutex` whose guard is dropped during a panic
    unwind becomes poisoned, and `lock().unwrap()` on a poisoned mutex
    panics, which the state tracks with poisoning flags.
  * The Coqui backend (the Python `TTS` object) is an external collaborator;
    its observable behaviour (`is_multi_lingual`, `is_multi_speaker`,
    `output_sample_rate`, `tts(**kwargs)`) is an oracle supplied by the
    environment, keyed on the exact kwargs the element passes.
  * `gstreamer::debug!` only evaluates its format arguments when the debug
    category is above threshold; the environment carries that flag, and the
    `&samples[..32]` slice in `generate_output` is evaluated exactly when
    the flag is set.
-/

set_option autoImplicit false

namespace Coquitts

/-- A value passed as a Python keyword argument (`PyDict::set_item`). -/
inductive KwVal where
  | str (s : String)
  | bool (b : Bool)
  deriving DecidableEq, Repr

/-- The element's `Settings` struct (`src/filter/imp.rs` lines 50-57). -/
structure Settings where
  model : String
  speaker : Option String
  language : Option String
  voice_cloning_input_file : Option String
  gpu : Bool
  deriving DecidableEq, Repr

/-- Default model name (`DEFAULT_MODEL`). -/
def DEFAULT_MODEL : String := "tts_models/tr/common-voice/glow-tts"

/-- Default GPU flag (`DEFAULT_GPU`). -/
def DEFAULT_GPU : Bool := false

/-- The observable behaviour of a constructed Python `TTS` object: the
attributes and the `tts` method the element reads.  `tts` returns `none`
when the Python call raises (`Err(e)` in the source) and the raw sample
sequence (32-bit patterns) on success. -/
structure Backend where
  is_multi_lingual : Bool
  is_multi_speaker : Bool
  output_sample_rate : Nat
  tts : List (String × KwVal) → Option (List Nat)

/-- The environment: how `TTS.api.TTS(**kwargs)` behaves for given
construction kwargs, and whether the `coquitts` debug category is above
threshold (so that `gstreamer::debug!` evaluates its arguments). -/
structure Env where
  backendOf : List (String × KwVal) → Backend
  debugEnabled : Bool

/-- A Rust panic observable from the element's entry points. -/
inductive Panic where
  /-- one of the two `panic!` calls in `init_synth` -/
  | config (msg : String)
  /-- `lock().unwrap()` on a poisoned mutex -/
  | mutexPoisoned
  /-- the `&samples[..32]` slice in `generate_output` with fewer than 32 samples -/
  | indexOutOfBounds
  deriving DecidableEq, Repr

/-- The element state: the two mutexes (`settings`, `synth`) with their
poisoning status, the constructed backend handle if any, the buffers the
base class has queued for `generate_output`, and a count of backend
constructions performed (for the at-most-once property). -/
structure ElementState where
  settings : Settings
  synth : Option Backend
  settingsPoisoned : Bool
  synthPoisoned : Bool
  queued : List (List Nat)
  initCount : Nat

/-- Construction kwargs built in `init_synth` (lines 199-206):
`model_name`, `progress_bar = false`, `gpu`. -/
def initKwargs (s : Settings) : List (String × KwVal) :=
  [("model_name", KwVal.str s.model),
   ("progress_bar", KwVal.bool false),
   ("gpu", KwVal.bool s.gpu)]

/-- `CoquittsFilter::init_synth` (lines 192-236): build the backend from the
construction kwargs, then validate — if the model is multi-lingual and
`language` is unset, or multi-speaker and `speaker` is unset, `panic!`.
The panic unwinds while the `settings` lock guard is live, poisoning it.
Construction happens before validation, so the construction count rises
even on the failing paths. -/
def init_synth (env : Env) (st : ElementState) :
    Except Panic Backend × ElementState :=
  if st.settingsPoisoned then (Except.error Panic.mutexPoisoned, st)
  else
    let synth := env.backendOf (initKwargs st.settings)
    let st' := { st with initCount := st.initCount + 1 }
    if st.settings.language.isNone ∧ synth.is_multi_lingual then
      (Except.error (Panic.config
          "This model is multi-lingual and requires specifying the `language` property"),
       { st' with settingsPoisoned := true })
    else if st.settings.speaker.isNone ∧ synth.is_multi_speaker then
      (Except.error (Panic.config
          "This model is multi-speaker and requires specifying the `speaker` property"),
       { st' with settingsPoisoned := true })
    else (Except.ok synth, st')

/-- `CoquittsFilter::with_synth` (lines 238-254): lock the `synth` mutex,
initialise it if empty, then run `f` on the handle.  A panic out of
`init_synth` unwinds while the `synth` guard is live, poisoning that mutex
as well. -/
def with_synth {α : Type} (env : Env) (st : ElementState) (f : Backend → α) :
    Except Panic α × ElementState :=
  if st.synthPoisoned then (Except.error Panic.mutexPoisoned, st)
  else
    match st.synth with
    | some h => (Except.ok (f h), st)
    | none =>
      match init_synth env st with
      | (Except.ok h, st') => (Except.ok (f h), { st' with synth := some h })
      | (Except.error p, st') => (Except.error p, { st' with synthPoisoned := true })

/-- Whether a byte is a UTF-8 continuation byte (`10xxxxxx`). -/
def isCont (b : Nat) : Bool := 0x80 ≤ b && b < 0xC0

/-- Strict UTF-8 decoding of a byte sequence into code points, faithful to
Rust's `str::from_utf8`: rejects stray continuation bytes, overlong
encodings, surrogate code points and values above `U+10FFFF`.  Returns
`none` exactly when `str::from_utf8` returns `Err`. -/
def utf8Decode : List Nat → Option (List Nat)
  | [] => some []
  | b :: rest =>
    if b < 0x80 then
      match utf8Decode rest with
      | some cs => some (b :: cs)
      | none => none
    else if b < 0xC2 then none
    else if b < 0xE0 then
      match rest with
      | b1 :: rest2 =>
        if isCont b1 then
          match utf8Decode rest2 with
          | some cs => some (((b - 0xC0) * 0x40 + (b1 - 0x80)) :: cs)
          | none => none
        else none
      | [] => none
    else if b < 0xF0 then
      match rest with
      | b1 :: b2 :: rest3 =>
        if (if b = 0xE0 then decide (0xA0 ≤ b1) && decide (b1 < 0xC0)
            else if b = 0xED then decide (0x80 ≤ b1) && decide (b1 < 0xA0)
            else isCont b1) && isCont b2 then
          match utf8Decode rest3 with
          | some cs =>
            some (((b - 0xE0) * 0x1000 + (b1 - 0x80) * 0x40 + (b2 - 0x80)) :: cs)
          | none => none
        else none
      | _ => none
    else if b < 0xF5 then
      match rest with
      | b1 :: b2 :: b3 :: rest4 =>
        if (if b = 0xF0 then decide (0x90 ≤ b1) && decide (b1 < 0xC0)
            else if b = 0xF4 then decide (0x80 ≤ b1) && decide (b1 < 0x90)
            else isCont b1) && isCont b2 && isCont b3 then
          match utf8Decode rest4 with
          | some cs =>
            some (((b - 0xF0) * 0x40000 + (b1 - 0x80) * 0x1000
                   + (b2 - 0x80) * 0x40 + (b3 - 0x80)) :: cs)
          | none => none
        else none
      | _ => none
    else none

/-- The `&str` produced by a successful `str::from_utf8`, as a Lean string
over the decoded code points. -/
def utf8DecodeString (bs : List Nat) : Option String :=
  (utf8Decode bs).map (fun cs => String.mk (cs.map Char.ofNat))

/-- A field value inside a caps structure. -/
inductive FieldVal where
  | str (s : String)
  | int (i : Int)
  deriving DecidableEq, Repr

/-- One caps structure: a media-type name and its fields. -/
structure CapStructure where
  name : String
  fields : List (String × FieldVal)
  deriving DecidableEq, Repr

/-- A caps value: an ordered list of structures. -/
abbrev Caps : Type := List CapStructure

/-- First value bound to a key in a field list. -/
def lookupField (fs : List (String × FieldVal)) (k : String) : Option FieldVal :=
  match fs with
  | [] => none
  | (k', v) :: rest => if k' = k then some v else lookupField rest k

/-- Two field lists are compatible when every key they share is bound to
equal values. -/
def fieldsCompatible (a b : List (String × FieldVal)) : Bool :=
  a.all (fun kv =>
    match lookupField b kv.1 with
    | some v => v = kv.2
    | none => true)

/-- Fields of the intersection of two compatible structures: all of `a`'s
fields, then `b`'s fields whose keys `a` does not bind. -/
def mergeFields (a b : List (String × FieldVal)) : List (String × FieldVal) :=
  a ++ b.filter (fun kv => (lookupField a kv.1).isNone)

/-- Intersection of two caps structures: defined when the names match and
the shared fields agree, and then carries the union of the fields.
Modelled from the spec: this is the behaviour of the external
`gst_structure_intersect` on the fixed (non-range) field values this
element produces. -/
def intersectStruct (a b : CapStructure) : Option CapStructure :=
  if a.name = b.name ∧ fieldsCompatible a.fields b.fields then
    some ⟨a.name, mergeFields a.fields b.fields⟩
  else none

/-- `Caps::intersect_with_mode(_, CapsIntersectMode::First)`.
Modelled from the spec: the external first-mode caps intersection keeps
the first operand's structure ordering ("the caller's filter ordering
takes precedence"), pairing each of its structures with every compatible
structure of the second operand. -/
def intersectFirst (c1 c2 : Caps) : Caps :=
  c1.flatMap (fun s1 => c2.filterMap (fun s2 => intersectStruct s1 s2))

/-- `SINK_CAPS` (lines 47-48): `text/x-raw, format=utf8`. -/
def SINK_CAPS : Caps := [⟨"text/x-raw", [("format", FieldVal.str "utf8")]⟩]

/-- `u64 as i32` (the cast applied to the backend sample rate on line 291):
two's-complement truncation to 32 bits. -/
def i32ofU64 (n : Nat) : Int :=
  let m : Nat := n % 2 ^ 32
  if m < 2 ^ 31 then (m : Int) else (m : Int) - 2 ^ 32

/-- `src_caps_builder().rate(r)` (lines 41-43 and 291): mono 32-bit float
audio caps at a fixed rate. -/
def srcCapsWithRate (r : Int) : Caps :=
  [⟨"audio/x-raw",
    [("format", FieldVal.str "F32LE"),
     ("layout", FieldVal.str "interleaved"),
     ("channels", FieldVal.int 1),
     ("rate", FieldVal.int r)]⟩]

/-- The `if let Some(filter) = maybe_filter` step of `transform_caps`
(lines 293-295): `filter.intersect_with_mode(&caps, First)`. -/
def applyFilter (maybe_filter : Option Caps) (caps : Caps) : Caps :=
  match maybe_filter with
  | some filter => intersectFirst filter caps
  | none => caps

/-- Pad direction of the caps being transformed. -/
inductive PadDirection where
  | Src
  | Sink
  deriving DecidableEq, Repr

/-- `CoquittsFilter::transform_caps` (lines 272-297).  For `Src` (text side)
it returns `SINK_CAPS` without touching the backend; for `Sink` (audio
side) it reads `synthesizer.output_sample_rate` through `with_synth`
(initialising the backend if needed) and builds rate-fixed audio caps;
either result is then intersected with the filter.  The source wraps the
result in `Some`; a panic escaping `with_synth` is surfaced as the error
case here. -/
def transform_caps (env : Env) (direction : PadDirection)
    (maybe_filter : Option Caps) (st : ElementState) :
    Except Panic Caps × ElementState :=
  match direction with
  | PadDirection.Src => (Except.ok (applyFilter maybe_filter SINK_CAPS), st)
  | PadDirection.Sink =>
    match with_synth env st (fun s => s.output_sample_rate) with
    | (Except.ok sample_rate, st') =>
      (Except.ok (applyFilter maybe_filter (srcCapsWithRate (i32ofU64 sample_rate))), st')
    | (Except.error p, st') => (Except.error p, st')

/-- The kwargs passed to the Python `tts` call (lines 308-322): `text`
always, then `speaker`, `language`, `speaker_wav` exactly when the
corresponding setting is present. -/
def ttsKwargs (text : String) (s : Settings) : List (String × KwVal) :=
  [("text", KwVal.str text)]
  ++ (match s.speaker with
      | some sp => [("speaker", KwVal.str sp)]
      | none => [])
  ++ (match s.language with
      | some l => [("language", KwVal.str l)]
      | none => [])
  ++ (match s.voice_cloning_input_file with
      | some f => [("speaker_wav", KwVal.str f)]
      | none => [])

/-- Little-endian byte encoding of a sample vector: each 32-bit pattern
becomes its four bytes, least significant first, with no header or
padding (`byte_slice_cast::AsByteSlice` on a `Vec<f32>`, line 353). -/
def encodeLE (samples : List Nat) : List Nat :=
  samples.flatMap (fun s =>
    [s % 256, s / 256 % 256, s / 65536 % 256, s / 16777216 % 256])

/-- Result of one `generate_output` call. -/
inductive GenResult where
  /-- a panic unwinding out of the call -/
  | panic (p : Panic)
  /-- `Err(FlowError::Error)` -/
  | flowError
  /-- `Ok(GenerateOutputSuccess::NoOutput)` -/
  | noOutput
  /-- `Ok(GenerateOutputSuccess::Buffer(_))` with the buffer's bytes -/
  | buffer (bytes : List Nat)
  deriving DecidableEq, Repr

/-- `CoquittsFilter::generate_output` (lines 299-375).  Take the next queued
buffer (none → `NoOutput`); decode it as UTF-8 (failure →
`FlowError::Error`); run the backend `tts` call through `with_synth` with
`ttsKwargs`; a Python-side failure → `NoOutput`; on success, when the
debug category is enabled the `&samples[..32]` log argument is evaluated
(panicking if fewer than 32 samples), and otherwise the samples are
reinterpreted as bytes and returned as the output buffer. -/
def generate_output (env : Env) (st : ElementState) :
    GenResult × ElementState :=
  match st.queued with
  | [] => (GenResult.noOutput, st)
  | b :: rest =>
    let st1 := { st with queued := rest }
    match utf8DecodeString b with
    | none => (GenResult.flowError, st1)
    | some text =>
      match with_synth env st1 (fun s => s.tts (ttsKwargs text st1.settings)) with
      | (Except.error p, st2) => (GenResult.panic p, st2)
      | (Except.ok none, st2) => (GenResult.noOutput, st2)
      | (Except.ok (some samples), st2) =>
        if env.debugEnabled ∧ samples.length < 32 then
          (GenResult.panic Panic.indexOutOfBounds, st2)
        else (GenResult.buffer (encodeLE samples), st2)

/-! ### Fixtures: concrete environments and states used to exercise the
definitions at concrete inputs. -/

/-- The element's settings right after `ObjectSubclass::new` (lines 72-83). -/
def demoSettings : Settings :=
  { model := DEFAULT_MODEL
    speaker := none
    language := none
    voice_cloning_input_file := none
    gpu := DEFAULT_GPU }

/-- A single-speaker, single-language backend with a fixed sample rate and
a fixed `tts` answer. -/
def constBackend (rate : Nat) (res : Option (List Nat)) : Backend :=
  { is_multi_lingual := false
    is_multi_speaker := false
    output_sample_rate := rate
    tts := fun _ => res }

/-- An environment in which every construction yields the same backend. -/
def mkEnv (bk : Backend) (dbg : Bool) : Env :=
  { backendOf := fun _ => bk, debugEnabled := dbg }

/-- An element state with healthy mutexes. -/
def mkState (s : Settings) (syn : Option Backend) (q : List (List Nat))
    (count : Nat) : ElementState :=
  { settings := s
    synth := syn
    settingsPoisoned := false
    synthPoisoned := false
    queued := q
    initCount := count }

/-! ### Helper lemmas -/

/-- Each sample contributes exactly four bytes to the encoded buffer. -/
theorem encodeLE_length (samples : List Nat) :
    (encodeLE samples).length = 4 * samples.length := by
  induction samples with
  | nil => rfl
  | cons a t ih =>
    simp only [encodeLE, List.flatMap_cons, List.length_append, List.length_cons,
      List.length_nil] at *
    omega

/-- Looking a key up in an appended field list searches the left part first. -/
theorem lookupField_append (a b : List (String × FieldVal)) (k : String) :
    lookupField (a ++ b) k =
      match lookupField a k with
      | some v => some v
      | none => lookupField b k := by
  induction a with
  | nil => simp [lookupField]
  | cons kv t ih =>
    by_cases hk : kv.1 = k
    · simp [lookupField, hk]
    · simp [lookupField, hk, ih]

/-- Keys absent from `a` survive the `mergeFields` filter on `b`. -/
theorem lookupField_filter_not_in (a b : List (String × FieldVal)) (k : String)
    (h : lookupField a k = none) :
    lookupField (b.filter (fun kv => (lookupField a kv.1).isNone)) k =
      lookupField b k := by
  induction b with
  | nil => rfl
  | cons kv t ih =>
    simp only [List.filter_cons]
    by_cases hkept : (lookupField a kv.1).isNone = true
    · rw [if_pos hkept]
      by_cases hk : kv.1 = k
      · simp [lookupField, hk]
      · simp [lookupField, hk, ih]
    · rw [if_neg hkept]
      by_cases hk : kv.1 = k
      · exact absurd (by rw [hk, h]; rfl) hkept
      · simp [lookupField, hk, ih]

/-- Lookup in merged fields: the first operand wins, the second fills in. -/
theorem lookupField_mergeFields (a b : List (String × FieldVal)) (k : String) :
    lookupField (mergeFields a b) k =
      match lookupField a k with
      | some v => some v
      | none => lookupField b k := by
  unfold mergeFields
  rw [lookupField_append]
  cases ha : lookupField a k with
  | some v => rfl
  | none => simp [lookupField_filter_not_in a b k ha]

/-- If the shared fields agree and `a` binds `k`, then `a`'s value equals
`b`'s value at `k`. -/
theorem fieldsCompatible_lookup (a b : List (String × FieldVal)) (k : String)
    (v w : FieldVal) (hc : fieldsCompatible a b = true)
    (ha : lookupField a k = some v) (hb : lookupField b k = some w) :
    v = w := by
  induction a with
  | nil => simp [lookupField] at ha
  | cons kv t ih =>
    rw [fieldsCompatible, List.all_cons] at hc
    simp only [Bool.and_eq_true] at hc
    obtain ⟨h1, h2⟩ := hc
    by_cases hk : kv.1 = k
    · rw [lookupField, if_pos hk] at ha
      rw [hk, hb] at h1
      cases ha
      exact (decide_eq_true_iff.mp h1).symm
    · rw [lookupField, if_neg hk] at ha
      exact ih h2 ha

/-- Intersecting against a single-structure caps is a `filterMap` over the
first operand, so the result keeps the first operand's ordering. -/
theorem intersectFirst_singleton (f : Caps) (s : CapStructure) :
    intersectFirst f [s] = f.filterMap (fun s1 => intersectStruct s1 s) := by
  induction f with
  | nil => rfl
  | cons a t ih =>
    have step : intersectFirst (a :: t) [s] =
        (List.filterMap (fun s2 => intersectStruct a s2) [s]) ++ intersectFirst t [s] := by
      simp only [intersectFirst, List.flatMap_cons]
    rw [step, ih, List.filterMap_cons]
    cases h : intersectStruct a s with
    | none => simp [List.filterMap_cons, List.filterMap_nil, h]
    | some r => simp [List.filterMap_cons, List.filterMap_nil, h]

/-- Every structure surviving an intersection against single-structure caps
whose structure binds `k` to `v` also binds `k` to `v`. -/
theorem mem_intersectFirst_singleton_lookup (f : Caps) (s : CapStructure)
    (k : String) (v : FieldVal) (hs : lookupField s.fields k = some v)
    (t : CapStructure) (ht : t ∈ intersectFirst f [s]) :
    lookupField t.fields k = some v := by
  rw [intersectFirst_singleton] at ht
  obtain ⟨s1, _, hint⟩ := List.mem_filterMap.mp ht
  unfold intersectStruct at hint
  by_cases hcond : s1.name = s.name ∧ fieldsCompatible s1.fields s.fields = true
  · rw [if_pos hcond] at hint
    cases hint
    simp only [lookupField_mergeFields]
    cases h1 : lookupField s1.fields k with
    | none => simpa [h1] using hs
    | some w =>
      have := fieldsCompatible_lookup s1.fields s.fields k w v hcond.2 h1 hs
      simp [h1, this]
  · rw [if_neg hcond] at hint
    cases hint

/-- Structures surviving an intersection against single-structure caps have
that structure's media-type name. -/
theorem mem_intersectFirst_singleton_name (f : Caps) (s : CapStructure)
    (t : CapStructure) (ht : t ∈ intersectFirst f [s]) : t.name = s.name := by
  rw [intersectFirst_singleton] at ht
  obtain ⟨s1, _, hint⟩ := List.mem_filterMap.mp ht
  unfold intersectStruct at hint
  by_cases hcond : s1.name = s.name ∧ fieldsCompatible s1.fields s.fields = true
  · rw [if_pos hcond] at hint
    cases hint
    exact hcond.1
  · rw [if_neg hcond] at hint
    cases hint

/-- Behaviour of `generate_output` on a ready (initialised, unpoisoned)
session with a decodable head buffer: the result is fully determined by
the backend's answer to `tts` on exactly `ttsKwargs text settings`. -/
theorem generate_output_ready (env : Env) (st : ElementState) (h : Backend)
    (b : List Nat) (rest : List (List Nat)) (text : String)
    (hq : st.queued = b :: rest)
    (htext : utf8DecodeString b = some text)
    (hpois : st.synthPoisoned = false)
    (hsyn : st.synth = some h) :
    generate_output env st =
      (match h.tts (ttsKwargs text st.settings) with
       | none => (GenResult.noOutput, { st with queued := rest })
       | some samples =>
         if env.debugEnabled ∧ samples.length < 32 then
           (GenResult.panic Panic.indexOutOfBounds, { st with queued := rest })
         else (GenResult.buffer (encodeLE samples), { st with queued := rest })) := by
  simp only [generate_output, hq, htext, with_synth, hpois, hsyn,
    Bool.false_eq_true, if_false]
  cases h.tts (ttsKwargs text st.settings) with
  | none => rfl
  | some samples => rfl

/-- Behaviour of `with_synth` on an uninitialised, unpoisoned session whose
configuration passes validation: the backend constructed from
`initKwargs` is stored and handed to the closure, and the construction
count rises by one. -/
theorem with_synth_uninit_ok (env : Env) (st : ElementState)
    (hnone : st.synth = none)
    (hsp : st.synthPoisoned = false)
    (hset : st.settingsPoisoned = false)
    (hml : ¬(st.settings.language.isNone = true
        ∧ (env.backendOf (initKwargs st.settings)).is_multi_lingual = true))
    (hms : ¬(st.settings.speaker.isNone = true
        ∧ (env.backendOf (initKwargs st.settings)).is_multi_speaker = true))
    (α : Type) (f : Backend → α) :
    with_synth env st f =
      (Except.ok (f (env.backendOf (initKwargs st.settings))),
       { st with synth := some (env.backendOf (initKwargs st.settings)),
                 initCount := st.initCount + 1 }) := by
  simp only [with_synth, hsp, Bool.false_eq_true, if_false, hnone]
  simp only [init_synth, hset, Bool.false_eq_true, if_false]
  rw [if_neg hml, if_neg hms]
  simp [hsp]

/-- On a state failing `init_synth` validation, `init_synth` ends in one of
the two configuration panics, having constructed the backend and poisoned
the settings mutex. -/
theorem init_synth_validation_fails (env : Env) (st : ElementState)
    (hset : st.settingsPoisoned = false)
    (hbad : (st.settings.language.isNone = true
              ∧ (env.backendOf (initKwargs st.settings)).is_multi_lingual = true)
            ∨ (st.settings.speaker.isNone = true
              ∧ (env.backendOf (initKwargs st.settings)).is_multi_speaker = true)) :
    ∃ msg, init_synth env st =
      (Except.error (Panic.config msg),
       { st with initCount := st.initCount + 1, settingsPoisoned := true }) := by
  by_cases hml : st.settings.language.isNone = true
      ∧ (env.backendOf (initKwargs st.settings)).is_multi_lingual = true
  · refine ⟨"This model is multi-lingual and requires specifying the `language` property", ?_⟩
    simp only [init_synth, hset, Bool.false_eq_true, if_false]
    rw [if_pos hml]
  · have hms := hbad.resolve_left hml
    refine ⟨"This model is multi-speaker and requires specifying the `speaker` property", ?_⟩
    simp only [init_synth, hset, Bool.false_eq_true, if_false]
    rw [if_neg hml, if_pos hms]

/-! ### Claim theorems -/

/-- C7: whenever the input queue is empty (`take_queued_buffer` yields
nothing), `generate_output` returns `NoOutput`, not an error, and leaves
the state — in particular the backend handle and the construction count —
completely untouched. -/
theorem C7_empty_queue_no_output (env : Env) (st : ElementState)
    (h : st.queued = []) :
    generate_output env st = (GenResult.noOutput, st) := by
  simp only [generate_output, h]

def C7_backend : Backend := constBackend 22050 none

def C7_env : Env := mkEnv C7_backend false

def C7_st : ElementState := mkState demoSettings none [] 0

theorem C7_empty_queue_no_output_witness :
    C7_st.queued = [] ∧ generate_output C7_env C7_st = (GenResult.noOutput, C7_st) :=
  ⟨rfl, C7_empty_queue_no_output C7_env C7_st rfl⟩

/-- C6: a queued buffer whose payload is not valid UTF-8 makes
`generate_output` return the flow error (`Err(FlowError::Error)`), never
`NoOutput`; the only state change is consuming the buffer — the backend is
not touched (same `synth`, same construction count) for that unit. -/
theorem C6_invalid_utf8_flow_error (env : Env) (st : ElementState)
    (b : List Nat) (rest : List (List Nat))
    (hq : st.queued = b :: rest) (hbad : utf8Decode b = none) :
    generate_output env st = (GenResult.flowError, { st with queued := rest }) := by
  simp only [generate_output, hq, utf8DecodeString, hbad, Option.map_none']

def C6_env : Env := mkEnv (constBackend 22050 none) false

def C6_st : ElementState := mkState demoSettings none [[0xFF]] 0

theorem C6_invalid_utf8_flow_error_witness :
    C6_st.queued = [0xFF] :: [] ∧ utf8Decode [0xFF] = none ∧
    generate_output C6_env C6_st = (GenResult.flowError, { C6_st with queued := [] }) :=
  ⟨rfl, by decide,
   C6_invalid_utf8_flow_error C6_env C6_st [0xFF] [] rfl (by decide)⟩

/-- C2: when the backend `tts` call succeeds with a sample sequence (and the
out-of-bounds debug slice of C10 is not evaluated), `generate_output`
returns a buffer whose bytes are exactly the sequential little-endian
32-bit encoding of the samples, in order, with no header or padding, and
whose length is exactly four bytes per sample. -/
theorem C2_generates_exact_le_bytes (env : Env) (st : ElementState)
    (h : Backend) (b : List Nat) (rest : List (List Nat)) (text : String)
    (samples : List Nat)
    (hq : st.queued = b :: rest)
    (htext : utf8DecodeString b = some text)
    (hpois : st.synthPoisoned = false)
    (hsyn : st.synth = some h)
    (htts : h.tts (ttsKwargs text st.settings) = some samples)
    (hdbg : env.debugEnabled = false ∨ 32 ≤ samples.length) :
    generate_output env st =
      (GenResult.buffer (encodeLE samples), { st with queued := rest })
    ∧ (encodeLE samples).length = 4 * samples.length := by
  refine ⟨?_, encodeLE_length samples⟩
  simp only [generate_output, hq, htext, with_synth, hpois, hsyn, htts,
    Bool.false_eq_true, if_false]
  rcases hdbg with hd | hl
  · simp [hd]
  · have hnl : ¬ samples.length < 32 := not_lt.mpr hl
    simp [hnl]

/-- The spec's three example samples 0.1, -0.2, 0.05 as `f32` bit patterns. -/
def exampleSamples : List Nat := [0x3DCCCCCD, 0xBE4CCCCD, 0x3D4CCCCD]

/-- The UTF-8 bytes of `"hello"`. -/
def helloBytes : List Nat := [104, 101, 108, 108, 111]

def C2_backend : Backend := constBackend 22050 (some exampleSamples)

def C2_env : Env := mkEnv C2_backend false

def C2_st : ElementState := mkState demoSettings (some C2_backend) [helloBytes] 1

theorem C2_generates_exact_le_bytes_witness :
    C2_st.queued = helloBytes :: [] ∧
    utf8DecodeString helloBytes = some "hello" ∧
    C2_st.synthPoisoned = false ∧
    C2_st.synth = some C2_backend ∧
    C2_backend.tts (ttsKwargs "hello" C2_st.settings) = some exampleSamples ∧
    (C2_env.debugEnabled = false ∨ 32 ≤ exampleSamples.length) ∧
    (generate_output C2_env C2_st =
       (GenResult.buffer (encodeLE exampleSamples), { C2_st with queued := [] })
     ∧ (encodeLE exampleSamples).length = 4 * exampleSamples.length) ∧
    encodeLE exampleSamples =
      [0xCD, 0xCC, 0xCC, 0x3D, 0xCD, 0xCC, 0x4C, 0xBE, 0xCD, 0xCC, 0x4C, 0x3D] :=
  ⟨rfl, by decide, rfl, rfl, rfl, Or.inl rfl,
   C2_generates_exact_le_bytes C2_env C2_st C2_backend helloBytes [] "hello"
     exampleSamples rfl (by decide) rfl rfl rfl (Or.inl rfl),
   by decide⟩

/-- C4: negotiating the text side (`direction == Src`) never touches the
backend session — the state comes back verbatim — and returns the fixed
UTF-8 text capability intersected with the filter when present; the
intersection pairs each filter structure, in the filter's order, against
the single text structure (first-compatible-match-wins with the caller's
ordering taking precedence), and every structure of the result is
`text/x-raw` with `format=utf8`. -/
theorem C4_text_side_fixed_caps (env : Env) (maybe_filter : Option Caps)
    (st : ElementState) :
    transform_caps env PadDirection.Src maybe_filter st =
      (Except.ok (applyFilter maybe_filter SINK_CAPS), st)
    ∧ (∀ f : Caps, applyFilter (some f) SINK_CAPS =
        f.filterMap (fun s1 =>
          intersectStruct s1 ⟨"text/x-raw", [("format", FieldVal.str "utf8")]⟩))
    ∧ (∀ s ∈ applyFilter maybe_filter SINK_CAPS,
        s.name = "text/x-raw"
        ∧ lookupField s.fields "format" = some (FieldVal.str "utf8")) := by
  refine ⟨rfl, fun f => intersectFirst_singleton f _, ?_⟩
  intro s hs
  cases maybe_filter with
  | none =>
    simp only [applyFilter, SINK_CAPS, List.mem_singleton] at hs
    subst hs
    exact ⟨rfl, rfl⟩
  | some f =>
    simp only [applyFilter, SINK_CAPS] at hs
    exact ⟨mem_intersectFirst_singleton_name f _ s hs,
      mem_intersectFirst_singleton_lookup f
        ⟨"text/x-raw", [("format", FieldVal.str "utf8")]⟩
        "format" (FieldVal.str "utf8") rfl s hs⟩

def C4_env : Env := mkEnv (constBackend 22050 none) false

def C4_st : ElementState := mkState demoSettings none [] 0

/-- A caller filter listing an incompatible structure first, then a
compatible `text/x-raw` structure carrying an extra field. -/
def C4_filter : Caps :=
  [⟨"application/x-subtitle", []⟩,
   ⟨"text/x-raw", [("extra", FieldVal.int 7)]⟩]

theorem C4_text_side_fixed_caps_witness :
    transform_caps C4_env PadDirection.Src (some C4_filter) C4_st =
      (Except.ok (applyFilter (some C4_filter) SINK_CAPS), C4_st)
    ∧ applyFilter (some C4_filter) SINK_CAPS =
        [⟨"text/x-raw", [("extra", FieldVal.int 7), ("format", FieldVal.str "utf8")]⟩] :=
  ⟨(C4_text_side_fixed_caps C4_env (some C4_filter) C4_st).1, by decide⟩

/-- C5: a failed backend `tts` call on one unit is absorbed — the call
returns `NoOutput`, no error is surfaced — and leaves the initialised
session intact: the handle is unchanged and a subsequent valid unit on the
same element synthesises successfully. -/
theorem C5_synthesis_failure_soft (env : Env) (st : ElementState)
    (h : Backend) (b : List Nat) (rest : List (List Nat)) (text : String)
    (hq : st.queued = b :: rest)
    (htext : utf8DecodeString b = some text)
    (hpois : st.synthPoisoned = false)
    (hsyn : st.synth = some h)
    (htts : h.tts (ttsKwargs text st.settings) = none) :
    generate_output env st = (GenResult.noOutput, { st with queued := rest })
    ∧ ({ st with queued := rest } : ElementState).synth = some h
    ∧ (∀ b2 rest2 text2 samples2,
        rest = b2 :: rest2 →
        utf8DecodeString b2 = some text2 →
        h.tts (ttsKwargs text2 st.settings) = some samples2 →
        (env.debugEnabled = false ∨ 32 ≤ samples2.length) →
        (generate_output env { st with queued := rest }).1
          = GenResult.buffer (encodeLE samples2)) := by
  refine ⟨?_, hsyn, ?_⟩
  · rw [generate_output_ready env st h b rest text hq htext hpois hsyn, htts]
  · intro b2 rest2 text2 samples2 hr ht2 htts2 hdbg
    have hq2 : ({ st with queued := rest } : ElementState).queued = b2 :: rest2 := hr
    rw [generate_output_ready env _ h b2 rest2 text2 hq2 ht2 hpois hsyn, htts2]
    rcases hdbg with hd | hl
    · simp [hd]
    · have hnl : ¬ samples2.length < 32 := not_lt.mpr hl
      simp [hnl]

/-- The UTF-8 bytes of `"bad"`. -/
def badBytes : List Nat := [98, 97, 100]

/-- A backend that fails to synthesise the text `"bad"` and returns 40
zero samples for anything else. -/
def C5_backend : Backend :=
  { is_multi_lingual := false
    is_multi_speaker := false
    output_sample_rate := 22050
    tts := fun kw =>
      if kw = [("text", KwVal.str "bad")] then none
      else some (List.replicate 40 0) }

def C5_env : Env := mkEnv C5_backend false

def C5_st : ElementState := mkState demoSettings (some C5_backend) [badBytes, helloBytes] 1

theorem C5_synthesis_failure_soft_witness :
    C5_st.queued = badBytes :: [helloBytes] ∧
    utf8DecodeString badBytes = some "bad" ∧
    C5_backend.tts (ttsKwargs "bad" C5_st.settings) = none ∧
    generate_output C5_env C5_st =
      (GenResult.noOutput, { C5_st with queued := [helloBytes] }) ∧
    (generate_output C5_env { C5_st with queued := [helloBytes] }).1
      = GenResult.buffer (encodeLE (List.replicate 40 0)) := by
  have H := C5_synthesis_failure_soft C5_env C5_st C5_backend badBytes [helloBytes]
    "bad" rfl (by decide) rfl rfl (by decide)
  exact ⟨rfl, by decide, by decide, H.1,
    H.2.2 helloBytes [] "hello" (List.replicate 40 0) rfl (by decide) (by decide)
      (Or.inl rfl)⟩

/-- C8: once the session handle is initialised, it stays the same handle:
`with_synth` on an initialised element hands the existing handle to the
closure and constructs nothing, and both element operations
(`transform_caps` in either direction, `generate_output` on any queue)
preserve the handle and perform no further construction (the construction
count is unchanged). -/
theorem C8_backend_constructed_at_most_once (env : Env) (st : ElementState)
    (h : Backend)
    (hpois : st.synthPoisoned = false)
    (hsyn : st.synth = some h) :
    (∀ (α : Type) (f : Backend → α), with_synth env st f = (Except.ok (f h), st))
    ∧ (∀ (dir : PadDirection) (mf : Option Caps),
        ((transform_caps env dir mf st).2).synth = some h
        ∧ ((transform_caps env dir mf st).2).initCount = st.initCount)
    ∧ (((generate_output env st).2).synth = some h
       ∧ ((generate_output env st).2).initCount = st.initCount) := by
  have hws : ∀ (α : Type) (f : Backend → α),
      with_synth env st f = (Except.ok (f h), st) := by
    intro α f
    simp only [with_synth, hpois, hsyn, Bool.false_eq_true, if_false]
  refine ⟨hws, ?_, ?_⟩
  · intro dir mf
    cases dir with
    | Src => exact ⟨hsyn, rfl⟩
    | Sink =>
      simp only [transform_caps]
      rw [hws Nat (fun s => s.output_sample_rate)]
      exact ⟨hsyn, rfl⟩
  · cases hq : st.queued with
    | nil =>
      simp only [generate_output, hq]
      exact ⟨hsyn, trivial⟩
    | cons b rest =>
      cases ht : utf8DecodeString b with
      | none =>
        simp only [generate_output, hq, ht]
        exact ⟨hsyn, trivial⟩
      | some text =>
        rw [generate_output_ready env st h b rest text hq ht hpois hsyn]
        cases h.tts (ttsKwargs text st.settings) with
        | none => exact ⟨hsyn, rfl⟩
        | some samples =>
          by_cases hc : env.debugEnabled = true ∧ samples.length < 32
          · simp [hc, hsyn]
          · simp [hc, hsyn]

def C8_backend : Backend := constBackend 16000 (some (List.replicate 40 0))

def C8_env : Env := mkEnv C8_backend false

def C8_st : ElementState := mkState demoSettings (some C8_backend) [helloBytes] 1

theorem C8_backend_constructed_at_most_once_witness :
    C8_st.synthPoisoned = false ∧
    C8_st.synth = some C8_backend ∧
    with_synth C8_env C8_st (fun s => s.output_sample_rate) =
      (Except.ok 16000, C8_st) ∧
    ((transform_caps C8_env PadDirection.Sink none C8_st).2).synth = some C8_backend ∧
    ((generate_output C8_env C8_st).2).initCount = C8_st.initCount := by
  have H := C8_backend_constructed_at_most_once C8_env C8_st C8_backend rfl rfl
  exact ⟨rfl, rfl, H.1 Nat (fun s => s.output_sample_rate),
    (H.2.1 PadDirection.Sink none).1, H.2.2.2⟩

/-- C9: the `tts` call receives the text plus exactly those of `speaker`,
`language` and `voice_cloning_input_file` (as `speaker_wav`) that are set
— an unset option contributes no key at all; `generate_output` invokes the
backend with exactly these kwargs; and construction passes exactly
`model_name`, `progress_bar = false` and `gpu`. -/
theorem C9_kwargs_exact (text : String) (s : Settings) :
    (∀ k v, (k, v) ∈ ttsKwargs text s ↔
      (k = "text" ∧ v = KwVal.str text)
      ∨ (∃ sp, s.speaker = some sp ∧ k = "speaker" ∧ v = KwVal.str sp)
      ∨ (∃ l, s.language = some l ∧ k = "language" ∧ v = KwVal.str l)
      ∨ (∃ f, s.voice_cloning_input_file = some f ∧ k = "speaker_wav" ∧ v = KwVal.str f))
    ∧ (∀ (env : Env) (st : ElementState) (h : Backend) (b : List Nat)
         (rest : List (List Nat)),
        st.settings = s →
        st.queued = b :: rest →
        utf8DecodeString b = some text →
        st.synthPoisoned = false →
        st.synth = some h →
        h.tts (ttsKwargs text s) = none →
        (generate_output env st).1 = GenResult.noOutput)
    ∧ (∀ (env : Env) (st : ElementState),
        st.synth = none →
        st.synthPoisoned = false →
        st.settingsPoisoned = false →
        ¬(st.settings.language.isNone = true
          ∧ (env.backendOf (initKwargs st.settings)).is_multi_lingual = true) →
        ¬(st.settings.speaker.isNone = true
          ∧ (env.backendOf (initKwargs st.settings)).is_multi_speaker = true) →
        ∀ (α : Type) (f : Backend → α),
          with_synth env st f =
            (Except.ok (f (env.backendOf (initKwargs st.settings))),
             { st with synth := some (env.backendOf (initKwargs st.settings)),
                       initCount := st.initCount + 1 }))
    ∧ initKwargs s = [("model_name", KwVal.str s.model),
        ("progress_bar", KwVal.bool false), ("gpu", KwVal.bool s.gpu)] := by
  refine ⟨?_, ?_, ?_, rfl⟩
  · intro k v
    cases hsp : s.speaker <;> cases hl : s.language <;>
      cases hv : s.voice_cloning_input_file <;>
      simp [ttsKwargs, hsp, hl, hv, Prod.ext_iff]
  · intro env st h b rest hset hq htext hpois hsyn htts
    rw [generate_output_ready env st h b rest text hq htext hpois hsyn, hset, htts]
  · intro env st hnone hsp hset hml hms α f
    exact with_synth_uninit_ok env st hnone hsp hset hml hms α f

def C9_settings : Settings :=
  { model := "m"
    speaker := some "ann"
    language := none
    voice_cloning_input_file := some "v.wav"
    gpu := true }

def C9_backend : Backend := constBackend 22050 none

def C9_env : Env := mkEnv C9_backend false

def C9_st : ElementState := mkState C9_settings none [] 0

def C9_stReady : ElementState := mkState C9_settings (some C9_backend) [helloBytes] 1

theorem C9_kwargs_exact_witness :
    (("speaker", KwVal.str "ann") ∈ ttsKwargs "hello" C9_settings) ∧
    (¬ ∃ v, ("language", v) ∈ ttsKwargs "hello" C9_settings) ∧
    (generate_output C9_env C9_stReady).1 = GenResult.noOutput ∧
    with_synth C9_env C9_st (fun s => s.output_sample_rate) =
      (Except.ok 22050,
       { C9_st with synth := some (C9_env.backendOf (initKwargs C9_st.settings)),
                    initCount := C9_st.initCount + 1 }) ∧
    initKwargs C9_settings = [("model_name", KwVal.str "m"),
      ("progress_bar", KwVal.bool false), ("gpu", KwVal.bool true)] := by
  have H := C9_kwargs_exact "hello" C9_settings
  refine ⟨?_, ?_, ?_, ?_, H.2.2.2⟩
  · exact (H.1 "speaker" (KwVal.str "ann")).mpr
      (Or.inr (Or.inl ⟨"ann", rfl, rfl, rfl⟩))
  · rintro ⟨v, hv⟩
    rcases (H.1 "language" v).mp hv with
      ⟨hk, _⟩ | ⟨sp, _, hk, _⟩ | ⟨l, hl, _, _⟩ | ⟨f, _, hk, _⟩
    · exact absurd hk (by decide)
    · exact absurd hk (by decide)
    · exact Option.noConfusion hl
    · exact absurd hk (by decide)
  · exact H.2.1 C9_env C9_stReady C9_backend helloBytes [] rfl rfl (by decide)
      rfl rfl (by decide)
  · exact H.2.2.1 C9_env C9_st rfl rfl rfl
      (fun hc => Bool.noConfusion hc.2) (fun hc => Bool.noConfusion hc.1) Nat
      (fun s => s.output_sample_rate)

/-- C10: on a successful synthesis, the `&samples[..32]` expression inside
the `gstreamer::debug!` call is evaluated exactly when the debug category
is above threshold, and it indexes past the end of the sample vector
whenever there are fewer than 32 samples — `generate_output` then panics;
it completes without panicking exactly when the sequence has at least 32
samples or the debug evaluation is skipped. -/
theorem C10_debug_slice_out_of_bounds (env : Env) (st : ElementState)
    (h : Backend) (b : List Nat) (rest : List (List Nat)) (text : String)
    (samples : List Nat)
    (hq : st.queued = b :: rest)
    (htext : utf8DecodeString b = some text)
    (hpois : st.synthPoisoned = false)
    (hsyn : st.synth = some h)
    (htts : h.tts (ttsKwargs text st.settings) = some samples) :
    (env.debugEnabled = true → samples.length < 32 →
      (generate_output env st).1 = GenResult.panic Panic.indexOutOfBounds)
    ∧ (env.debugEnabled = false ∨ 32 ≤ samples.length →
      (generate_output env st).1 = GenResult.buffer (encodeLE samples)) := by
  rw [generate_output_ready env st h b rest text hq htext hpois hsyn, htts]
  constructor
  · intro hd hl
    simp [hd, hl]
  · intro hdbg
    rcases hdbg with hd | hl
    · simp [hd]
    · simp [not_lt.mpr hl]

def C10_backend : Backend := constBackend 22050 (some exampleSamples)

def C10_envOn : Env := mkEnv C10_backend true

def C10_st : ElementState := mkState demoSettings (some C10_backend) [helloBytes] 1

theorem C10_debug_slice_out_of_bounds_witness :
    C10_envOn.debugEnabled = true ∧ exampleSamples.length < 32 ∧
    (generate_output C10_envOn C10_st).1 = GenResult.panic Panic.indexOutOfBounds := by
  have H := C10_debug_slice_out_of_bounds C10_envOn C10_st C10_backend helloBytes []
    "hello" exampleSamples rfl (by decide) rfl rfl rfl
  exact ⟨rfl, by decide, H.1 rfl (by decide)⟩

/-- C1: on an uninitialised element whose configuration fails validation
(multi-lingual backend with `language` unset, or multi-speaker backend
with `speaker` unset), the first readiness attempt fails with the fatal
configuration panic; the unwind poisons the mutexes, so the failure is
terminal: every later transform call that reaches the backend fails with
the poisoned-mutex panic, and no later call can ever produce an output
buffer — the element never silently produces degraded output. -/
theorem C1_missing_config_fatal_terminal (env : Env) (st : ElementState)
    (b : List Nat) (rest : List (List Nat)) (text : String)
    (hset : st.settingsPoisoned = false)
    (hpois : st.synthPoisoned = false)
    (hnone : st.synth = none)
    (hbad : (st.settings.language.isNone = true
              ∧ (env.backendOf (initKwargs st.settings)).is_multi_lingual = true)
            ∨ (st.settings.speaker.isNone = true
              ∧ (env.backendOf (initKwargs st.settings)).is_multi_speaker = true)) :
    (∃ msg, (init_synth env st).1 = Except.error (Panic.config msg))
    ∧ (st.queued = b :: rest → utf8DecodeString b = some text →
        ∃ msg, (generate_output env st).1 = GenResult.panic (Panic.config msg)
          ∧ ((generate_output env st).2).synthPoisoned = true
          ∧ ((generate_output env st).2).synth = none)
    ∧ (∀ st2 : ElementState, st2.synthPoisoned = true →
        (∀ bs, (generate_output env st2).1 ≠ GenResult.buffer bs)
        ∧ ((generate_output env st2).2).synthPoisoned = true
        ∧ (∀ b2 r2 t2, st2.queued = b2 :: r2 → utf8DecodeString b2 = some t2 →
            (generate_output env st2).1 = GenResult.panic Panic.mutexPoisoned)) := by
  refine ⟨?_, ?_, ?_⟩
  · obtain ⟨msg, hfail⟩ := init_synth_validation_fails env st hset hbad
    exact ⟨msg, by rw [hfail]⟩
  · intro hq htext
    obtain ⟨msg, hfail⟩ :=
      init_synth_validation_fails env ({ st with queued := rest }) hset hbad
    refine ⟨msg, ?_⟩
    simp only [hnone, hpois] at hfail
    have hg : generate_output env st =
        (GenResult.panic (Panic.config msg),
         { settings := st.settings, synth := none, settingsPoisoned := true,
           synthPoisoned := true, queued := rest, initCount := st.initCount + 1 }) := by
      simp only [generate_output, hq, htext, with_synth, hpois, hnone,
        Bool.false_eq_true, if_false, hfail]
    rw [hg]
    exact ⟨rfl, rfl, rfl⟩
  · intro st2 hp2
    cases hq2 : st2.queued with
    | nil =>
      have hg : generate_output env st2 = (GenResult.noOutput, st2) := by
        simp only [generate_output, hq2]
      refine ⟨?_, ?_, ?_⟩
      · intro bs hbs
        rw [hg] at hbs
        exact GenResult.noConfusion hbs
      · rw [hg]
        exact hp2
      · intro b2 r2 t2 hcons
        exact List.noConfusion hcons
    | cons b2 r2 =>
      cases ht2 : utf8DecodeString b2 with
      | none =>
        have hg : generate_output env st2 =
            (GenResult.flowError, { st2 with queued := r2 }) := by
          simp only [generate_output, hq2, ht2]
        refine ⟨?_, ?_, ?_⟩
        · intro bs hbs
          rw [hg] at hbs
          exact GenResult.noConfusion hbs
        · rw [hg]
          exact hp2
        · intro b2' r2' t2' hcons ht2'
          cases hcons
          rw [ht2] at ht2'
          exact Option.noConfusion ht2'
      | some t2 =>
        have hg : generate_output env st2 =
            (GenResult.panic Panic.mutexPoisoned, { st2 with queued := r2 }) := by
          simp [generate_output, hq2, ht2, with_synth, hp2]
        refine ⟨?_, ?_, ?_⟩
        · intro bs hbs
          rw [hg] at hbs
          exact GenResult.noConfusion hbs
        · rw [hg]
          exact hp2
        · intro b2' r2' t2' hcons ht2'
          rw [hg]

/-- A multi-lingual backend, used with a configuration whose `language` is
unset. -/
def C1_backend : Backend :=
  { is_multi_lingual := true
    is_multi_speaker := false
    output_sample_rate := 22050
    tts := fun _ => some (List.replicate 40 0) }

def C1_env : Env := mkEnv C1_backend false

def C1_st : ElementState := mkState demoSettings none [helloBytes, helloBytes] 0

theorem C1_missing_config_fatal_terminal_witness :
    C1_st.settingsPoisoned = false ∧
    C1_st.synth = none ∧
    (C1_st.settings.language.isNone = true
      ∧ (C1_env.backendOf (initKwargs C1_st.settings)).is_multi_lingual = true) ∧
    (∃ msg, (generate_output C1_env C1_st).1 = GenResult.panic (Panic.config msg)) ∧
    ((generate_output C1_env C1_st).2).synthPoisoned = true ∧
    (generate_output C1_env ((generate_output C1_env C1_st).2)).1
      = GenResult.panic Panic.mutexPoisoned := by
  have H := C1_missing_config_fatal_terminal C1_env C1_st helloBytes [helloBytes]
    "hello" rfl rfl rfl (Or.inl ⟨rfl, rfl⟩)
  obtain ⟨msg, h1, h2, _⟩ := H.2.1 rfl (by decide)
  refine ⟨rfl, rfl, ⟨rfl, rfl⟩, ⟨msg, h1⟩, h2, ?_⟩
  exact (H.2.2 ((generate_output C1_env C1_st).2) h2).2.2 helloBytes [] "hello"
    (by decide) (by decide)

/-- C3 (amended): negotiating the audio side on a `Ready` session returns
caps built from the backend's `output_sample_rate` truncated by the
`u64 as i32` cast — every structure of the (possibly filtered) result
carries exactly that rate, which equals the backend's reported value
whenever the value is below `2^31`; and when the session is uninitialised
this path constructs the backend (construction count rises by one). -/
theorem C3_audio_rate_from_backend (env : Env) (st : ElementState)
    (maybe_filter : Option Caps) (h : Backend)
    (hpois : st.synthPoisoned = false) :
    (st.synth = some h →
      transform_caps env PadDirection.Sink maybe_filter st =
        (Except.ok (applyFilter maybe_filter
           (srcCapsWithRate (i32ofU64 h.output_sample_rate))), st)
      ∧ (∀ s ∈ applyFilter maybe_filter (srcCapsWithRate (i32ofU64 h.output_sample_rate)),
          lookupField s.fields "rate" = some (FieldVal.int (i32ofU64 h.output_sample_rate)))
      ∧ (h.output_sample_rate < 2 ^ 31 →
          i32ofU64 h.output_sample_rate = (h.output_sample_rate : Int)))
    ∧ (st.synth = none → st.settingsPoisoned = false →
        ¬(st.settings.language.isNone = true
          ∧ (env.backendOf (initKwargs st.settings)).is_multi_lingual = true) →
        ¬(st.settings.speaker.isNone = true
          ∧ (env.backendOf (initKwargs st.settings)).is_multi_speaker = true) →
        ((transform_caps env PadDirection.Sink maybe_filter st).2).synth
          = some (env.backendOf (initKwargs st.settings))
        ∧ ((transform_caps env PadDirection.Sink maybe_filter st).2).initCount
          = st.initCount + 1) := by
  constructor
  · intro hsyn
    have hws : with_synth env st (fun s => s.output_sample_rate) =
        (Except.ok h.output_sample_rate, st) := by
      simp only [with_synth, hpois, hsyn, Bool.false_eq_true, if_false]
    refine ⟨?_, ?_, ?_⟩
    · simp only [transform_caps, hws]
    · intro s hs
      cases maybe_filter with
      | none =>
        simp only [applyFilter, srcCapsWithRate, List.mem_singleton] at hs
        subst hs
        rfl
      | some f =>
        simp only [applyFilter, srcCapsWithRate] at hs
        exact mem_intersectFirst_singleton_lookup f
          ⟨"audio/x-raw",
           [("format", FieldVal.str "F32LE"), ("layout", FieldVal.str "interleaved"),
            ("channels", FieldVal.int 1),
            ("rate", FieldVal.int (i32ofU64 h.output_sample_rate))]⟩
          "rate" (FieldVal.int (i32ofU64 h.output_sample_rate)) rfl s hs
    · intro hlt
      have hm : h.output_sample_rate % 2 ^ 32 = h.output_sample_rate :=
        Nat.mod_eq_of_lt (lt_trans hlt (by norm_num))
      simp only [i32ofU64, hm]
      rw [if_pos hlt]
  · intro hnone hsetok hml hms
    rw [transform_caps.eq_def]
    rw [with_synth_uninit_ok env st hnone hpois hsetok hml hms Nat
      (fun s => s.output_sample_rate)]
    exact ⟨rfl, rfl⟩

def C3w_backend : Backend := constBackend 22050 none

def C3w_env : Env := mkEnv C3w_backend false

def C3w_ready : ElementState := mkState demoSettings (some C3w_backend) [] 1

def C3w_uninit : ElementState := mkState demoSettings none [] 0

theorem C3_audio_rate_from_backend_witness :
    transform_caps C3w_env PadDirection.Sink none C3w_ready =
      (Except.ok (applyFilter none (srcCapsWithRate (i32ofU64 22050))), C3w_ready) ∧
    i32ofU64 22050 = (22050 : Int) ∧
    ((transform_caps C3w_env PadDirection.Sink none C3w_uninit).2).synth
      = some (C3w_env.backendOf (initKwargs C3w_uninit.settings)) := by
  have H1 := C3_audio_rate_from_backend C3w_env C3w_ready none C3w_backend rfl
  have H2 := C3_audio_rate_from_backend C3w_env C3w_uninit none C3w_backend rfl
  refine ⟨(H1.1 rfl).1, (H1.1 rfl).2.2 (by decide),
    (H2.2 rfl rfl ?_ ?_).1⟩
  · intro hc
    exact Bool.noConfusion hc.2
  · intro hc
    exact Bool.noConfusion hc.2

/-- A backend reporting a sample rate of `2^31`: the `u64 as i32` cast in
`transform_caps` wraps it to `-2^31`, so the advertised rate differs from
`output_sample_rate()`. -/
def C3_backend : Backend := constBackend (2 ^ 31) none

def C3_env : Env := mkEnv C3_backend false

def C3_st : ElementState := mkState demoSettings (some C3_backend) [] 1

theorem C3_rate_cast_counterexample :
    C3_backend.output_sample_rate = 2 ^ 31 ∧
    C3_st.synth = some C3_backend ∧
    (transform_caps C3_env PadDirection.Sink none C3_st).1 =
      Except.ok [⟨"audio/x-raw",
        [("format", FieldVal.str "F32LE"), ("layout", FieldVal.str "interleaved"),
         ("channels", FieldVal.int 1), ("rate", FieldVal.int (-2147483648))]⟩] ∧
    FieldVal.int (-2147483648) ≠ FieldVal.int 2147483648 := by
  exact ⟨rfl, rfl, rfl, by decide⟩

end Coquitts
